import Mathlib

/-!
# Verification of the movie catalog-and-review application

A shallow embedding of `src/movie.py`: a Streamlit app over a SQLite
database with two tables, `movies` and `reviews`.  SQL queries and the
small pandas computations of the app are translated into executable Lean
functions over an explicit database state, and the behavioural claims of
the specification are settled against them.

Modelling notes on SQLite semantics that matter below:
* `get_db_connection` (src/movie.py:11-15) opens the connection with
  `sqlite3.connect` and never issues `PRAGMA foreign_keys = ON`.  SQLite
  ships with foreign-key enforcement OFF by default, so the declared
  `FOREIGN KEY (movie_id) REFERENCES movies(id) ON DELETE CASCADE` of the
  `reviews` table is inert on every connection the app opens: inserts are
  not checked against `movies`, and deleting a movie row does not cascade.
* `CHECK` and `NOT NULL` column constraints are always enforced,
  independently of that pragma.
* `TEXT` comparison under the default BINARY collation is byte-wise
  comparison of the UTF-8 encoding, which coincides with the code-point
  lexicographic order of Lean `String`s; `ORDER BY ... DESC` puts SQL
  `NULL` last (NULL sorts below every value).
* SQL `AVG` and the pandas `mean` are modelled with exact rational
  arithmetic (`ℚ`): both compute the sum of the values divided by their
  number, without rounding.
-/

namespace MovieApp

/-- A row of the `movies` table (src/movie.py:26-36).  `id` is the
`INTEGER PRIMARY KEY AUTOINCREMENT` column; the remaining nullable
columns are `Option`s. -/
structure Movie where
  id : Nat
  title : String
  director : Option String
  release_year : Option Int
  poster_url : Option String
  genre : Option String
  trailer_url : Option String
deriving Repr, DecidableEq

/-- A row of the `reviews` table (src/movie.py:39-48).  `movie_id` and
`rating` are `NOT NULL`; `rating` carries the schema constraint
`CHECK (rating >= 1 AND rating <= 5)`, enforced at insert time. -/
structure Review where
  id : Nat
  movie_id : Nat
  rating : Int
  review_text : Option String
  watch_date : Option String
deriving Repr, DecidableEq

/-- The persistent state of `db.db`: the two tables, in rowid order,
together with the next `AUTOINCREMENT` value of each. -/
structure DB where
  movies : List Movie
  reviews : List Review
  next_movie_id : Nat
  next_review_id : Nat
deriving Repr, DecidableEq

/-! ## Schema manager: `init_db` (src/movie.py:17-50) -/

/-- The column/constraint text of `CREATE TABLE IF NOT EXISTS movies`
(src/movie.py:26-36). -/
def moviesTableSQL : String :=
  "id INTEGER PRIMARY KEY AUTOINCREMENT, title TEXT NOT NULL, director TEXT, release_year INTEGER, poster_url TEXT, genre TEXT, trailer_url TEXT"

/-- The column/constraint text of `CREATE TABLE IF NOT EXISTS reviews`
(src/movie.py:39-48). -/
def reviewsTableSQL : String :=
  "id INTEGER PRIMARY KEY AUTOINCREMENT, movie_id INTEGER NOT NULL, rating INTEGER NOT NULL CHECK (rating >= 1 AND rating <= 5), review_text TEXT, watch_date TEXT, FOREIGN KEY (movie_id) REFERENCES movies(id) ON DELETE CASCADE"

/-- A database schema: the list of (table name, table definition) pairs,
in creation order. -/
abbrev Schema := List (String × String)

/-- `CREATE TABLE IF NOT EXISTS name (ddl)`: a no-op when a table of that
name exists, otherwise appends the new table.  It never errors. -/
def createTableIfNotExists (name ddl : String) (s : Schema) : Schema :=
  if s.any (fun t => t.1 = name) then s else s ++ [(name, ddl)]

/-- `init_db` (src/movie.py:17-50): creates the `movies` and then the
`reviews` table, each with `IF NOT EXISTS`, and commits. -/
def init_db (s : Schema) : Schema :=
  createTableIfNotExists "reviews" reviewsTableSQL
    (createTableIfNotExists "movies" moviesTableSQL s)

/-! ## Review creation: `add_review_to_db` (src/movie.py:53-71) -/

/-- `add_review_to_db(movie_id, rating, review_text, watch_date)`
(src/movie.py:53-71): INSERTs into `reviews` and commits, returning
`True`; on a `sqlite3` constraint error it rolls back and returns
`False`.  The only constraint that can fire on this insert is the
`CHECK (rating >= 1 AND rating <= 5)` of the `rating` column: the
declared foreign key on `movie_id` is NOT checked, because
`get_db_connection` never enables `PRAGMA foreign_keys` (see the header
note), so an insert referencing a non-existent movie succeeds. -/
def add_review_to_db (db : DB) (movie_id : Nat) (rating : Int)
    (review_text : Option String) (watch_date : Option String) : DB × Bool :=
  if 1 ≤ rating ∧ rating ≤ 5 then
    ({ db with
        reviews := db.reviews ++
          [{ id := db.next_review_id, movie_id := movie_id, rating := rating,
             review_text := review_text, watch_date := watch_date }],
        next_review_id := db.next_review_id + 1 }, true)
  else (db, false)

/-- Modelled from the spec: `delete_movie(id)` — the repository operation
"cascades to delete all dependent reviews within the same atomic unit".
No DELETE statement occurs anywhere in src/movie.py, so the operation is
modelled as the spec's `DELETE FROM movies WHERE id = ?` executed on a
connection returned by `get_db_connection` (src/movie.py:11-15).  On such
a connection `PRAGMA foreign_keys` is at its default OFF, so the
`ON DELETE CASCADE` action declared in the `reviews` schema does not
fire: only the movie row is removed and the review rows stay behind. -/
def delete_movie (db : DB) (id : Nat) : DB :=
  { db with movies := db.movies.filter (fun m => m.id ≠ id) }

/-! ## Detail page: reviews of one movie (src/movie.py:245-254) -/

/-- The sort key of
`SELECT * FROM reviews WHERE movie_id = ? ORDER BY watch_date DESC, id DESC`
(src/movie.py:245): `a` may come before `b` iff `a`'s key is ≥ `b`'s in
the ordering "watch_date descending, SQL NULL last, then id descending".
SQLite sorts NULL below every TEXT value, so under DESC the NULLs come
last; TEXT comparison is the code-point lexicographic order. -/
def reviewOrd (a b : Review) : Prop :=
  match a.watch_date, b.watch_date with
  | none, none => b.id ≤ a.id
  | none, some _ => False
  | some _, none => True
  | some x, some y => y < x ∨ (y = x ∧ b.id ≤ a.id)

instance : DecidableRel reviewOrd := fun a b => by
  unfold reviewOrd
  exact match a.watch_date, b.watch_date with
  | none, none => inferInstanceAs (Decidable (b.id ≤ a.id))
  | none, some _ => isFalse id
  | some _, none => isTrue trivial
  | some x, some y => inferInstanceAs (Decidable (y < x ∨ (y = x ∧ b.id ≤ a.id)))

instance : IsTotal Review reviewOrd :=
  ⟨fun a b => by
    unfold reviewOrd
    rcases a.watch_date with _ | x <;> rcases b.watch_date with _ | y
    · exact Nat.le_total b.id a.id
    · exact Or.inr trivial
    · exact Or.inl trivial
    · rcases lt_trichotomy x y with h | h | h
      · exact Or.inr (Or.inl h)
      · rcases Nat.le_total b.id a.id with hid | hid
        · exact Or.inl (Or.inr ⟨h.symm, hid⟩)
        · exact Or.inr (Or.inr ⟨h, hid⟩)
      · exact Or.inl (Or.inl h)⟩

instance : IsTrans Review reviewOrd :=
  ⟨fun a b c hab hbc => by
    unfold reviewOrd at hab hbc ⊢
    revert hab hbc
    rcases a.watch_date with _ | x <;> rcases b.watch_date with _ | y <;>
      rcases c.watch_date with _ | z <;> intro hab hbc
    · exact le_trans hbc hab
    · exact hbc
    · exact hab.elim
    · exact hab.elim
    · exact trivial
    · exact hbc.elim
    · exact trivial
    · rcases hab with h1 | ⟨e1, i1⟩ <;> rcases hbc with h2 | ⟨e2, i2⟩
      · exact Or.inl (h2.trans h1)
      · exact Or.inl (by rw [e2]; exact h1)
      · exact Or.inl (by rw [← e1]; exact h2)
      · exact Or.inr ⟨e2.trans e1, le_trans i2 i1⟩⟩

/-- The result set of the detail page's review query
(src/movie.py:245-246): the movie's reviews, ordered by
`watch_date DESC, id DESC`. -/
def list_reviews_for_movie (db : DB) (movie_id : Nat) : List Review :=
  List.insertionSort reviewOrd (db.reviews.filter (fun r => r.movie_id = movie_id))

/-- The detail page's summary of a movie (src/movie.py:247-254): the
DataFrame built from the review query gives `review_count = len(reviews)`
and, when non-empty, `avg_rating = reviews['rating'].mean()`, the sum of
the ratings divided by their number; when the DataFrame is empty no
average is computed (`None`). -/
def movie_summary (db : DB) (movie_id : Nat) : Option ℚ × Nat :=
  let rs := list_reviews_for_movie db movie_id
  (if rs.isEmpty then none
   else some ((rs.map (fun r => (r.rating : ℚ))).sum / (rs.length : ℚ)),
   rs.length)

/-! ## Home page: movie list with rating summary (src/movie.py:109-126) -/

/-- The rows `FROM movies m LEFT JOIN reviews r ON m.id = r.movie_id`:
each movie paired with each of its reviews, or with a single NULL-padded
review when it has none. -/
def movieBranch (reviews : List Review) (m : Movie) : List (Movie × Option Review) :=
  let rs := reviews.filter (fun r => r.movie_id = m.id)
  if rs.isEmpty then [(m, none)] else rs.map (fun r => (m, some r))

/-- All rows of the home page's LEFT JOIN (src/movie.py:118-121). -/
def leftRows (movies : List Movie) (reviews : List Review) : List (Movie × Option Review) :=
  movies.flatMap (movieBranch reviews)

/-- The `GROUP BY m.id, m.title, m.director, m.release_year, m.poster_url`
key of the home page query (src/movie.py:122-123). -/
structure GroupKey where
  id : Nat
  title : String
  director : Option String
  release_year : Option Int
  poster_url : Option String
deriving Repr, DecidableEq

/-- The grouping key of a joined row's movie side. -/
def groupKey (m : Movie) : GroupKey :=
  { id := m.id, title := m.title, director := m.director,
    release_year := m.release_year, poster_url := m.poster_url }

/-- The non-NULL `r.rating` values of a list of joined rows: the inputs of
`AVG(r.rating)` and `COUNT(r.id)`, both of which ignore the NULL side of
an unmatched LEFT JOIN row. -/
def groupRatings (rows : List (Movie × Option Review)) : List Int :=
  rows.filterMap (fun p => p.2.map Review.rating)

/-- One output row of the home page query (src/movie.py:110-117):
the grouped columns plus `AVG(r.rating) AS avg_rating` and
`COUNT(r.id) AS review_count`.  `AVG` of an empty group (no non-NULL
input) is SQL NULL, i.e. `none`. -/
structure SummaryRow where
  id : Nat
  title : String
  director : Option String
  release_year : Option Int
  poster_url : Option String
  avg_rating : Option ℚ
  review_count : Nat
deriving Repr, DecidableEq

/-- The output row of the home page query for one group key. -/
def summaryRowOf (rows : List (Movie × Option Review)) (k : GroupKey) : SummaryRow :=
  let ratings := groupRatings (rows.filter (fun p => groupKey p.1 = k))
  { id := k.id, title := k.title, director := k.director,
    release_year := k.release_year, poster_url := k.poster_url,
    avg_rating :=
      if ratings.isEmpty then none
      else some ((ratings.map (fun x : Int => (x : ℚ))).sum / (ratings.length : ℚ)),
    review_count := ratings.length }

/-- `ORDER BY m.title ASC` on the output rows. -/
def titleLe (a b : SummaryRow) : Prop := a.title ≤ b.title

instance : DecidableRel titleLe := fun a b =>
  inferInstanceAs (Decidable (a.title ≤ b.title))

instance : IsTotal SummaryRow titleLe := ⟨fun a b => le_total a.title b.title⟩

instance : IsTrans SummaryRow titleLe :=
  ⟨fun _ _ _ hab hbc => le_trans hab hbc⟩

/-- The distinct group keys produced by the LEFT JOIN: the `GROUP BY`
groups of the home page query. -/
def summaryKeys (movies : List Movie) (reviews : List Review) : List GroupKey :=
  ((leftRows movies reviews).map (fun p => groupKey p.1)).dedup

/-- The full result of the home page query (src/movie.py:109-126): the
LEFT JOIN rows grouped by `(id, title, director, release_year,
poster_url)`, one `SummaryRow` per group, ordered by title ascending. -/
def list_movies_with_summary (db : DB) : List SummaryRow :=
  List.insertionSort titleLe
    ((summaryKeys db.movies db.reviews).map
      (summaryRowOf (leftRows db.movies db.reviews)))

/-- The value a cell of the pandas DataFrame built at src/movie.py:131
can hold in the `avg_rating` column: a Python `None` (kept when the
column stays `object`-typed), a float64 `NaN` (what a SQL NULL becomes
when the column is inferred as float64), or a number. -/
inductive PdVal where
  | pynone
  | nan
  | num (q : ℚ)
deriving Repr, DecidableEq

/-- Python truthiness of the `avg_rating` cell the home page tests at
src/movie.py:161.  `None` and `0.0` are falsy; `NaN` is TRUTHY
(`bool(float('nan'))` is `True`); every other float is truthy. -/
def pyTruthy : PdVal → Bool
  | .pynone => false
  | .nan => true
  | .num q => q ≠ 0

/-- The pandas conversion `pd.DataFrame([dict(row) for row in
all_movies_raw])` at src/movie.py:131, restricted to one `avg_rating`
cell.  pandas infers the column dtype from the whole result set: when
every row's `avg_rating` is SQL NULL the column keeps dtype `object` and
each cell stays Python `None`; as soon as any row carries a numeric
average the column is inferred float64 and every NULL is coerced to
`NaN`. -/
def pdAvgCell (rows : List SummaryRow) (a : Option ℚ) : PdVal :=
  match a with
  | some q => .num q
  | none => if rows.any (fun r => r.avg_rating.isSome) then .nan else .pynone

/-- The `movie_row['avg_rating']` value the home page actually tests at
src/movie.py:161: the row's SQL average after the DataFrame conversion
of the full result set. -/
def homeDisplayedAvg (db : DB) (row : SummaryRow) : PdVal :=
  pdAvgCell (list_movies_with_summary db) row.avg_rating

/-! ## Stats page: genre query (src/movie.py:354-360) -/

/-- The rows of `FROM movies m JOIN reviews r ON m.id = r.movie_id WHERE
m.genre IS NOT NULL AND m.genre != ''` projected to `(m.genre, r)`: one
row per (movie, review) pair whose movie has a non-NULL, non-empty genre
string.  The genre string is taken whole — the query never splits it on
commas. -/
def statsBranch (reviews : List Review) (m : Movie) : List (String × Review) :=
  match m.genre with
  | some g =>
      if g ≠ "" then
        (reviews.filter (fun r => r.movie_id = m.id)).map (fun r => (g, r))
      else []
  | none => []

def statsRows (db : DB) : List (String × Review) :=
  db.movies.flatMap (statsBranch db.reviews)

/-- Ordering of the genre result: `ORDER BY review_count DESC`.  SQLite
does not specify the relative order of equal counts; the model
determinises ties by genre string ascending. -/
def genreOrd (a b : String × Nat) : Prop :=
  b.2 < a.2 ∨ (a.2 = b.2 ∧ a.1 ≤ b.1)

instance : DecidableRel genreOrd := fun a b =>
  inferInstanceAs (Decidable (b.2 < a.2 ∨ (a.2 = b.2 ∧ a.1 ≤ b.1)))

instance : IsTotal (String × Nat) genreOrd :=
  ⟨fun a b => by
    unfold genreOrd
    rcases Nat.lt_trichotomy a.2 b.2 with h | h | h
    · exact Or.inr (Or.inl h)
    · rcases le_total a.1 b.1 with hs | hs
      · exact Or.inl (Or.inr ⟨h, hs⟩)
      · exact Or.inr (Or.inr ⟨h.symm, hs⟩)
    · exact Or.inl (Or.inl h)⟩

instance : IsTrans (String × Nat) genreOrd :=
  ⟨fun a b c hab hbc => by
    unfold genreOrd at *
    rcases hab with h1 | ⟨e1, s1⟩
    · rcases hbc with h2 | ⟨e2, s2⟩
      · exact Or.inl (h2.trans h1)
      · exact Or.inl (e2 ▸ h1)
    · rcases hbc with h2 | ⟨e2, s2⟩
      · exact Or.inl (e1 ▸ h2)
      · exact Or.inr ⟨e1.trans e2, s1.trans s2⟩⟩

/-- The stats page's genre aggregation (src/movie.py:354-360):
`SELECT m.genre, COUNT(r.id) FROM movies m JOIN reviews r ON
m.id = r.movie_id WHERE m.genre IS NOT NULL AND m.genre != ''
GROUP BY m.genre ORDER BY review_count DESC LIMIT limit` (the code runs
it with LIMIT 5).  Groups are the distinct whole genre strings of the
join rows; each group's count is its number of join rows. -/
def top_genres_by_review_count (db : DB) (limit : Nat) : List (String × Nat) :=
  let keys := ((statsRows db).map Prod.fst).dedup
  let groups := keys.map (fun g => (g, (statsRows db).countP (fun p => p.1 = g)))
  (List.insertionSort genreOrd groups).take limit

/-! ## Concrete databases used as test fixtures -/

/-- A fresh, empty database. -/
def emptyDB : DB :=
  { movies := [], reviews := [], next_movie_id := 1, next_review_id := 1 }

/-- The specification's worked scenario: movie "Inception" with genre
"SF, 액션" and two reviews, one with rating 5 (watched 2024-03-15) and
one with rating 3 (no watch date). -/
def scenarioDB : DB :=
  { movies := [{ id := 1, title := "Inception", director := none, release_year := none,
                 poster_url := none, genre := some "SF, 액션", trailer_url := none }],
    reviews := [{ id := 1, movie_id := 1, rating := 5, review_text := none,
                  watch_date := some "2024-03-15" },
                { id := 2, movie_id := 1, rating := 3, review_text := none,
                  watch_date := none }],
    next_movie_id := 2, next_review_id := 3 }

/-- A movie that has no reviews at all. -/
def lonelyMovie : Movie :=
  { id := 1, title := "Solaris", director := none, release_year := none,
    poster_url := none, genre := none, trailer_url := none }

/-- A database holding a single movie with zero reviews. -/
def lonelyDB : DB :=
  { movies := [lonelyMovie], reviews := [], next_movie_id := 2, next_review_id := 1 }

/-- The home page's output row for `lonelyMovie` in `lonelyDB`. -/
def lonelyRow : SummaryRow :=
  { id := 1, title := "Solaris", director := none, release_year := none,
    poster_url := none, avg_rating := none, review_count := 0 }

/-- A movie that has one review in `mixedDB`. -/
def ratedMovie : Movie :=
  { id := 1, title := "Inception", director := none, release_year := none,
    poster_url := none, genre := none, trailer_url := none }

/-- A movie that has no reviews in `mixedDB`. -/
def unratedMovie : Movie :=
  { id := 2, title := "Solaris", director := none, release_year := none,
    poster_url := none, genre := none, trailer_url := none }

/-- A database mixing a reviewed and an unreviewed movie: the shape on
which the home page's DataFrame infers float64 for `avg_rating` and
coerces the unreviewed movie's SQL NULL to `NaN`. -/
def mixedDB : DB :=
  { movies := [ratedMovie, unratedMovie],
    reviews := [{ id := 1, movie_id := 1, rating := 5, review_text := none,
                  watch_date := none }],
    next_movie_id := 3, next_review_id := 2 }

end MovieApp

/-! ## Supporting lemmas and claim theorems -/

namespace MovieApp

/-! ### Schema manager -/

theorem any_createTableIfNotExists_self (name ddl : String) (s : Schema) :
    (createTableIfNotExists name ddl s).any (fun t => t.1 = name) = true := by
  unfold createTableIfNotExists
  split
  · assumption
  · simp [List.any_append]

theorem any_createTableIfNotExists_mono (name ddl x : String) (s : Schema)
    (h : s.any (fun t => t.1 = x) = true) :
    (createTableIfNotExists name ddl s).any (fun t => t.1 = x) = true := by
  unfold createTableIfNotExists
  split
  · exact h
  · simp [List.any_append, h]

theorem createTableIfNotExists_of_any (name ddl : String) (s : Schema)
    (h : s.any (fun t => t.1 = name) = true) :
    createTableIfNotExists name ddl s = s := by
  unfold createTableIfNotExists
  simp [h]

/-- C8: `ensure_schema` (= `init_db`, src/movie.py:17-50) is idempotent:
a second call changes nothing (both `CREATE TABLE IF NOT EXISTS`
statements see their table and no-op, so no error and no duplicate is
possible in the model, which is total), any positive number of calls on a
fresh database yields the same schema as one call, and that schema
consists of exactly the two tables `movies` and `reviews` with their
source-text structure. -/
theorem init_db_idempotent :
    (∀ s : Schema, init_db (init_db s) = init_db s) ∧
    (∀ n : Nat, init_db^[n + 1] [] = init_db []) ∧
    init_db [] = [("movies", moviesTableSQL), ("reviews", reviewsTableSQL)] := by
  have hidem : ∀ s : Schema, init_db (init_db s) = init_db s := by
    intro s
    have hm : (init_db s).any (fun t => t.1 = "movies") = true :=
      any_createTableIfNotExists_mono _ _ _ _
        (any_createTableIfNotExists_self "movies" moviesTableSQL s)
    have hr : (init_db s).any (fun t => t.1 = "reviews") = true :=
      any_createTableIfNotExists_self "reviews" reviewsTableSQL _
    show createTableIfNotExists "reviews" reviewsTableSQL
        (createTableIfNotExists "movies" moviesTableSQL (init_db s)) = init_db s
    rw [createTableIfNotExists_of_any _ _ _ hm, createTableIfNotExists_of_any _ _ _ hr]
  refine ⟨hidem, ?_, by rfl⟩
  intro n
  induction n with
  | zero => rfl
  | succ k ih =>
      rw [Function.iterate_succ_apply', ih, hidem]

/-! ### Review creation -/

/-- C4: for every rating outside the closed range [1,5] the insert
violates `CHECK (rating >= 1 AND rating <= 5)`, `add_review_to_db`
catches the constraint error, rolls back and returns `False`, and the
database is exactly the prior state. -/
theorem add_review_to_db_rejects_out_of_range (db : DB) (movie_id : Nat) (rating : Int)
    (review_text watch_date : Option String) (h : rating < 1 ∨ 5 < rating) :
    add_review_to_db db movie_id rating review_text watch_date = (db, false) := by
  have hno : ¬(1 ≤ rating ∧ rating ≤ 5) := by omega
  simp [add_review_to_db, hno]

theorem add_review_to_db_rejects_out_of_range_witness :
    add_review_to_db emptyDB 1 7 none none = (emptyDB, false) :=
  add_review_to_db_rejects_out_of_range emptyDB 1 7 none none (Or.inr (by decide))

/-- C2: the code does NOT enforce referential integrity of
`Review.movie_id` at creation time.  On an empty database — no movie
with id 999 exists — `add_review_to_db(999, 3, ...)` succeeds (returns
`True`) and persists an orphaned review row, because `get_db_connection`
never issues `PRAGMA foreign_keys = ON` and SQLite therefore ignores the
declared `FOREIGN KEY (movie_id) REFERENCES movies(id)`. -/
theorem add_review_to_db_accepts_unknown_movie :
    (add_review_to_db emptyDB 999 3 none none).2 = true ∧
    (add_review_to_db emptyDB 999 3 none none).1.reviews =
      [{ id := 1, movie_id := 999, rating := 3, review_text := none, watch_date := none }] := by
  decide

/-- C3: deleting a movie does NOT remove its dependent reviews.  On the
scenario database, `delete_movie 1` removes the movie row but both of
its reviews survive as orphans: the `ON DELETE CASCADE` action declared
in the `reviews` schema never fires because no connection of the app
enables `PRAGMA foreign_keys`. -/
theorem delete_movie_orphans_reviews :
    delete_movie scenarioDB 1 = { scenarioDB with movies := [] } ∧
    ((delete_movie scenarioDB 1).reviews.filter (fun r => r.movie_id = 1)).length = 2 := by
  decide

/-! ### Structure of the LEFT JOIN rows -/

theorem mem_movieBranch {reviews : List Review} {m : Movie} {p : Movie × Option Review}
    (hp : p ∈ movieBranch reviews m) :
    p.1 = m ∧ ∀ r : Review, p.2 = some r → r ∈ reviews ∧ r.movie_id = m.id := by
  unfold movieBranch at hp
  by_cases h : (reviews.filter (fun r => r.movie_id = m.id)).isEmpty
  · rw [if_pos h] at hp
    have hp' : p = (m, none) := by simpa using hp
    subst hp'
    exact ⟨rfl, fun r hr => by cases hr⟩
  · rw [if_neg h] at hp
    obtain ⟨r, hr, rfl⟩ := List.mem_map.mp hp
    have hr' := List.mem_filter.mp hr
    refine ⟨rfl, fun r' hr'' => ?_⟩
    have : r = r' := by simpa using hr''
    subst this
    exact ⟨hr'.1, by simpa using hr'.2⟩

theorem movieBranch_ne_nil (reviews : List Review) (m : Movie) :
    movieBranch reviews m ≠ [] := by
  unfold movieBranch
  by_cases h : (reviews.filter (fun r => r.movie_id = m.id)).isEmpty
  · rw [if_pos h]; simp
  · rw [if_neg h]
    have : reviews.filter (fun r => r.movie_id = m.id) ≠ [] := by
      simpa [List.isEmpty_iff] using h
    simpa using this

theorem mem_leftRows {movies : List Movie} {reviews : List Review}
    {p : Movie × Option Review} (hp : p ∈ leftRows movies reviews) :
    p.1 ∈ movies ∧ ∀ r : Review, p.2 = some r → r ∈ reviews ∧ r.movie_id = p.1.id := by
  obtain ⟨m, hm, hmem⟩ := List.mem_flatMap.mp hp
  obtain ⟨h1, h2⟩ := mem_movieBranch hmem
  subst h1
  exact ⟨hm, h2⟩

theorem exists_leftRow {movies : List Movie} (reviews : List Review) {m : Movie}
    (hm : m ∈ movies) : ∃ p ∈ leftRows movies reviews, p.1 = m := by
  obtain ⟨p, hp⟩ := List.exists_mem_of_ne_nil _ (movieBranch_ne_nil reviews m)
  exact ⟨p, List.mem_flatMap.mpr ⟨m, hm, hp⟩, (mem_movieBranch hp).1⟩

/-- With unique movie ids (the PRIMARY KEY invariant), the LEFT JOIN rows
whose group key is the one of a stored movie `m` are exactly the rows
`m` itself contributes. -/
theorem filter_leftRows_eq (movies : List Movie) (reviews : List Review)
    (hnd : (movies.map Movie.id).Nodup) {m : Movie} (hm : m ∈ movies) :
    (leftRows movies reviews).filter (fun p => groupKey p.1 = groupKey m) =
      movieBranch reviews m := by
  induction movies with
  | nil => cases hm
  | cons m0 ms ih =>
    rw [List.map_cons, List.nodup_cons] at hnd
    have hsplit : leftRows (m0 :: ms) reviews =
        movieBranch reviews m0 ++ leftRows ms reviews := by
      unfold leftRows; rw [List.flatMap_cons]
    rw [hsplit, List.filter_append]
    rcases List.mem_cons.mp hm with rfl | hm'
    · have h1 : (movieBranch reviews m).filter
          (fun p => groupKey p.1 = groupKey m) = movieBranch reviews m := by
        apply List.filter_eq_self.mpr
        intro p hp
        simp [(mem_movieBranch hp).1]
      have h2 : (leftRows ms reviews).filter
          (fun p => groupKey p.1 = groupKey m) = [] := by
        apply List.filter_eq_nil_iff.mpr
        intro p hp
        have h3 := (mem_leftRows hp).1
        simp only [decide_eq_true_eq]
        intro hk
        have hkid : p.1.id = m.id := congrArg GroupKey.id hk
        exact hnd.1 (hkid ▸ List.mem_map_of_mem Movie.id h3)
      rw [h1, h2, List.append_nil]
    · have hid : m0.id ≠ m.id := by
        intro h
        exact hnd.1 (h ▸ List.mem_map_of_mem Movie.id hm')
      have h1 : (movieBranch reviews m0).filter
          (fun p => groupKey p.1 = groupKey m) = [] := by
        apply List.filter_eq_nil_iff.mpr
        intro p hp
        simp only [decide_eq_true_eq]
        intro hk
        exact hid (congrArg GroupKey.id ((mem_movieBranch hp).1 ▸ hk))
      rw [h1, List.nil_append, ih hnd.2 hm']

theorem groupRatings_movieBranch (reviews : List Review) (m : Movie) :
    groupRatings (movieBranch reviews m) =
      (reviews.filter (fun r => r.movie_id = m.id)).map Review.rating := by
  unfold movieBranch groupRatings
  by_cases h : (reviews.filter (fun r => r.movie_id = m.id)).isEmpty
  · rw [if_pos h, List.isEmpty_iff.mp h]
    rfl
  · rw [if_neg h, List.filterMap_map]
    exact List.filterMap_eq_map _ ▸ rfl

theorem nodup_summaryKeys (movies : List Movie) (reviews : List Review) :
    (summaryKeys movies reviews).Nodup :=
  List.nodup_dedup _

theorem mem_summaryKeys {movies : List Movie} {reviews : List Review} {k : GroupKey} :
    k ∈ summaryKeys movies reviews ↔ ∃ m ∈ movies, groupKey m = k := by
  unfold summaryKeys
  rw [List.mem_dedup, List.mem_map]
  constructor
  · rintro ⟨p, hp, rfl⟩
    exact ⟨p.1, (mem_leftRows hp).1, rfl⟩
  · rintro ⟨m, hm, rfl⟩
    obtain ⟨p, hp, hpm⟩ := exists_leftRow reviews hm
    exact ⟨p, hp, by rw [hpm]⟩

/-- With unique movie ids, the home page's output row for the group of a
stored movie `m` carries `m`'s columns, the review count of `m`, and the
`AVG` of `m`'s ratings (NULL when `m` has no review). -/
theorem summaryRowOf_groupKey (movies : List Movie) (reviews : List Review)
    (hnd : (movies.map Movie.id).Nodup) {m : Movie} (hm : m ∈ movies) :
    summaryRowOf (leftRows movies reviews) (groupKey m) =
      { id := m.id, title := m.title, director := m.director,
        release_year := m.release_year, poster_url := m.poster_url,
        avg_rating :=
          if (reviews.filter (fun r => r.movie_id = m.id)).length = 0 then none
          else some (((reviews.filter (fun r => r.movie_id = m.id)).map
                (fun r => (r.rating : ℚ))).sum /
              ((reviews.filter (fun r => r.movie_id = m.id)).length : ℚ)),
        review_count := (reviews.filter (fun r => r.movie_id = m.id)).length } := by
  unfold summaryRowOf
  rw [filter_leftRows_eq movies reviews hnd hm, groupRatings_movieBranch]
  simp only [List.isEmpty_iff_length_eq_zero, List.length_map, List.map_map]
  rfl

theorem countP_eq_one_of {α : Type _} (l : List α) (hnd : l.Nodup) (k0 : α)
    (hk : k0 ∈ l) (p : α → Bool) (hp : ∀ k ∈ l, p k = true ↔ k = k0) :
    l.countP p = 1 := by
  rw [List.countP_eq_length_filter]
  have hmem : k0 ∈ l.filter p := List.mem_filter.mpr ⟨hk, (hp k0 hk).mpr rfl⟩
  have hall : ∀ x ∈ l.filter p, x = k0 := by
    intro x hx
    have hx' := List.mem_filter.mp hx
    exact (hp x hx'.1).mp hx'.2
  have hnd' : (l.filter p).Nodup := hnd.filter p
  rcases hfl : l.filter p with _ | ⟨a, _ | ⟨b, t⟩⟩
  · rw [hfl] at hmem; cases hmem
  · rfl
  · exfalso
    rw [hfl] at hall hnd'
    have ha : a = k0 := hall a (by simp)
    have hb : b = k0 := hall b (by simp)
    rw [List.nodup_cons] at hnd'
    exact hnd'.1 (by rw [ha, ← hb]; simp)

/-! ### Detail page: review list and summary -/

/-- C7: the detail page's review query returns exactly the stored reviews
of the movie (as a permutation of the `WHERE movie_id = ?` filter of the
`reviews` table) and the returned order pairwise satisfies
"`watch_date` descending with NULL watch dates last, ties broken by `id`
descending" — the `reviewOrd` relation. -/
theorem list_reviews_for_movie_sorted (db : DB) (movie_id : Nat) :
    (list_reviews_for_movie db movie_id).Perm
      (db.reviews.filter (fun r => r.movie_id = movie_id)) ∧
    (list_reviews_for_movie db movie_id).Pairwise reviewOrd :=
  ⟨List.perm_insertionSort reviewOrd _, List.sorted_insertionSort reviewOrd _⟩

/-- Closed form of the detail page summary: sorting the reviews does not
change their number or the mean of their ratings, so `movie_summary`
computes the review count of the movie and, when that count is positive,
the exact arithmetic mean (sum divided by count, over `ℚ`); when the
count is zero it computes `none`. -/
theorem movie_summary_eq (db : DB) (movie_id : Nat) :
    movie_summary db movie_id =
      ((if (db.reviews.filter (fun r => r.movie_id = movie_id)).length = 0 then none
        else some (((db.reviews.filter (fun r => r.movie_id = movie_id)).map
              (fun r => (r.rating : ℚ))).sum /
            ((db.reviews.filter (fun r => r.movie_id = movie_id)).length : ℚ))),
       (db.reviews.filter (fun r => r.movie_id = movie_id)).length) := by
  have hp : (list_reviews_for_movie db movie_id).Perm
      (db.reviews.filter (fun r => r.movie_id = movie_id)) :=
    List.perm_insertionSort _ _
  have hlen := hp.length_eq
  have hsum : ((list_reviews_for_movie db movie_id).map (fun r => (r.rating : ℚ))).sum =
      ((db.reviews.filter (fun r => r.movie_id = movie_id)).map
        (fun r => (r.rating : ℚ))).sum :=
    (hp.map _).sum_eq
  simp only [movie_summary, List.isEmpty_iff_length_eq_zero, hlen, hsum]

/-- C6: `movie_summary` (the detail page's pandas computation,
src/movie.py:245-254) returns `review_count` equal to the number of the
movie's reviews, and `average_rating` equal to the exact arithmetic mean
of their ratings when that number is positive and `None` (not zero) when
it is zero. -/
theorem movie_summary_spec (db : DB) (movie_id : Nat) :
    (movie_summary db movie_id).2 =
      (db.reviews.filter (fun r => r.movie_id = movie_id)).length ∧
    (movie_summary db movie_id).1 =
      (if (db.reviews.filter (fun r => r.movie_id = movie_id)).length = 0 then none
       else some (((db.reviews.filter (fun r => r.movie_id = movie_id)).map
             (fun r => (r.rating : ℚ))).sum /
           ((db.reviews.filter (fun r => r.movie_id = movie_id)).length : ℚ))) := by
  rw [movie_summary_eq]
  exact ⟨rfl, rfl⟩

/-! ### Home page: movie list with summary -/

/-- C5: the home page query returns every stored movie exactly once
(counted by id, under the PRIMARY KEY uniqueness of movie ids), every
returned row is a stored movie's row, the result is sorted by title
ascending, and a movie with zero reviews appears with `avg_rating = none`
(SQL NULL) and `review_count = 0` — the LEFT JOIN keeps it. -/
theorem list_movies_with_summary_spec (db : DB)
    (hnd : (db.movies.map Movie.id).Nodup) :
    (∀ m ∈ db.movies,
        (list_movies_with_summary db).countP (fun row => row.id = m.id) = 1) ∧
    (∀ row ∈ list_movies_with_summary db, ∃ m ∈ db.movies,
        row.id = m.id ∧ row.title = m.title) ∧
    (list_movies_with_summary db).Pairwise titleLe ∧
    (∀ m ∈ db.movies, db.reviews.filter (fun r => r.movie_id = m.id) = [] →
        ∃ row ∈ list_movies_with_summary db,
          row.id = m.id ∧ row.avg_rating = none ∧ row.review_count = 0) := by
  have hperm : (list_movies_with_summary db).Perm
      ((summaryKeys db.movies db.reviews).map
        (summaryRowOf (leftRows db.movies db.reviews))) :=
    List.perm_insertionSort _ _
  refine ⟨?_, ?_, ?_, ?_⟩
  · intro m hm
    rw [hperm.countP_eq, List.countP_map]
    apply countP_eq_one_of _ (nodup_summaryKeys db.movies db.reviews) (groupKey m)
      (mem_summaryKeys.mpr ⟨m, hm, rfl⟩)
    intro k hk
    constructor
    · intro hpk
      have hkid : k.id = m.id := by
        simpa [summaryRowOf, Function.comp] using hpk
      obtain ⟨m', hm', rfl⟩ := mem_summaryKeys.mp hk
      have hmm : m' = m := List.inj_on_of_nodup_map hnd hm' hm hkid
      rw [hmm]
    · rintro rfl
      simp [summaryRowOf, groupKey, Function.comp]
  · intro row hrow
    obtain ⟨k, hk, rfl⟩ := List.mem_map.mp (hperm.mem_iff.mp hrow)
    obtain ⟨m, hm, rfl⟩ := mem_summaryKeys.mp hk
    exact ⟨m, hm, rfl, rfl⟩
  · exact List.sorted_insertionSort _ _
  · intro m hm hempty
    refine ⟨summaryRowOf (leftRows db.movies db.reviews) (groupKey m),
      hperm.mem_iff.mpr (List.mem_map_of_mem _ (mem_summaryKeys.mpr ⟨m, hm, rfl⟩)),
      rfl, ?_, ?_⟩
    · rw [summaryRowOf_groupKey db.movies db.reviews hnd hm]
      simp [hempty]
    · rw [summaryRowOf_groupKey db.movies db.reviews hnd hm]
      simp [hempty]

theorem list_movies_with_summary_spec_witness :
    ∃ row ∈ list_movies_with_summary lonelyDB,
      row.id = lonelyMovie.id ∧ row.avg_rating = none ∧ row.review_count = 0 :=
  (list_movies_with_summary_spec lonelyDB (by decide)).2.2.2 lonelyMovie
    (by decide) (by decide)

/-- C9: the two independent average computations agree.  For every
database with unique movie ids and every stored movie, the `avg_rating`
the home page's SQL `AVG(r.rating)` produces for that movie's row equals
the average the detail page's pandas `mean` computes over the same
review set (`movie_summary`). -/
theorem home_detail_average_agree (db : DB) (m : Movie) (hm : m ∈ db.movies)
    (hnd : (db.movies.map Movie.id).Nodup) :
    ∀ row ∈ list_movies_with_summary db, row.id = m.id →
      row.avg_rating = (movie_summary db m.id).1 := by
  have hperm : (list_movies_with_summary db).Perm
      ((summaryKeys db.movies db.reviews).map
        (summaryRowOf (leftRows db.movies db.reviews))) :=
    List.perm_insertionSort _ _
  intro row hrow hid
  obtain ⟨k, hk, rfl⟩ := List.mem_map.mp (hperm.mem_iff.mp hrow)
  obtain ⟨m', hm', rfl⟩ := mem_summaryKeys.mp hk
  have hid' : m'.id = m.id := hid
  have hmm : m' = m := List.inj_on_of_nodup_map hnd hm' hm hid'
  subst hmm
  rw [summaryRowOf_groupKey db.movies db.reviews hnd hm', movie_summary_eq]

theorem home_detail_average_agree_witness :
    lonelyRow.avg_rating = (movie_summary lonelyDB lonelyMovie.id).1 :=
  home_detail_average_agree lonelyDB lonelyMovie (by decide) (by decide)
    lonelyRow (by decide) (by decide)

/-- C10: the home page's truthiness test does NOT take the "no rating
yet" branch exactly when the movie has zero reviews.  On a database with
one reviewed movie and one unreviewed movie, the unreviewed movie's row
leaves the query with `avg_rating` = SQL NULL and `review_count` = 0,
but the DataFrame built at src/movie.py:131 infers float64 for the
mixed `avg_rating` column and coerces that NULL to `NaN`, which is
truthy — so line 161 takes the rating branch for a movie with no
reviews.  (The SQL value itself is the unique falsy one; the page just
never tests it.) -/
theorem nan_defeats_no_rating_branch :
    ∃ row ∈ list_movies_with_summary mixedDB,
      row.review_count = 0 ∧ row.avg_rating = none ∧
      pyTruthy (homeDisplayedAvg mixedDB row) = true := by
  have hperm : (list_movies_with_summary mixedDB).Perm
      ((summaryKeys mixedDB.movies mixedDB.reviews).map
        (summaryRowOf (leftRows mixedDB.movies mixedDB.reviews))) :=
    List.perm_insertionSort _ _
  have hnd : (mixedDB.movies.map Movie.id).Nodup := by decide
  have hm1 : ratedMovie ∈ mixedDB.movies := by decide
  have hm2 : unratedMovie ∈ mixedDB.movies := by decide
  have havg : (summaryRowOf (leftRows mixedDB.movies mixedDB.reviews)
      (groupKey unratedMovie)).avg_rating = none := by
    rw [summaryRowOf_groupKey mixedDB.movies mixedDB.reviews hnd hm2]
    decide
  have hany : (list_movies_with_summary mixedDB).any
      (fun r => r.avg_rating.isSome) = true := by
    rw [List.any_eq_true]
    refine ⟨summaryRowOf (leftRows mixedDB.movies mixedDB.reviews) (groupKey ratedMovie),
      hperm.mem_iff.mpr (List.mem_map_of_mem _ (mem_summaryKeys.mpr ⟨ratedMovie, hm1, rfl⟩)),
      ?_⟩
    rw [summaryRowOf_groupKey mixedDB.movies mixedDB.reviews hnd hm1]
    have hlen : (mixedDB.reviews.filter
        (fun r => r.movie_id = ratedMovie.id)).length = 1 := by decide
    simp [hlen]
  refine ⟨summaryRowOf (leftRows mixedDB.movies mixedDB.reviews) (groupKey unratedMovie),
    hperm.mem_iff.mpr (List.mem_map_of_mem _ (mem_summaryKeys.mpr ⟨unratedMovie, hm2, rfl⟩)),
    ?_, havg, ?_⟩
  · rw [summaryRowOf_groupKey mixedDB.movies mixedDB.reviews hnd hm2]
    decide
  · simp only [homeDisplayedAvg, havg, pdAvgCell]
    rw [if_pos hany]
    rfl

/-! ### Stats page: genre aggregation -/

theorem genre_of_mem_statsRows {db : DB} {p : String × Review}
    (hp : p ∈ statsRows db) : ∃ m ∈ db.movies, m.genre = some p.1 ∧ p.1 ≠ "" := by
  obtain ⟨m, hm, hmem⟩ := List.mem_flatMap.mp hp
  unfold statsBranch at hmem
  rcases hgen : m.genre with _ | gm
  · simp only [hgen] at hmem
    cases hmem
  · simp only [hgen] at hmem
    by_cases hgm : gm ≠ ""
    · rw [if_pos hgm] at hmem
      obtain ⟨r, hr, rfl⟩ := List.mem_map.mp hmem
      exact ⟨m, hm, by rw [hgen], hgm⟩
    · rw [if_neg hgm] at hmem
      cases hmem

theorem statsBranch_eq_of_genre_some {reviews : List Review} {m : Movie} {gm : String}
    (hgen : m.genre = some gm) :
    statsBranch reviews m =
      if gm ≠ "" then
        (reviews.filter (fun r => r.movie_id = m.id)).map (fun r => (gm, r))
      else [] := by
  unfold statsBranch
  rw [hgen]

theorem statsBranch_eq_of_genre_none {reviews : List Review} {m : Movie}
    (hgen : m.genre = none) : statsBranch reviews m = [] := by
  unfold statsBranch
  rw [hgen]

theorem countP_or_disjoint {α : Type _} (l : List α) (p q : α → Bool)
    (h : ∀ x ∈ l, ¬(p x = true ∧ q x = true)) :
    l.countP (fun x => p x || q x) = l.countP p + l.countP q := by
  induction l with
  | nil => simp
  | cons a t ih =>
    have ht := ih (fun x hx => h x (List.mem_cons_of_mem a hx))
    have ha := h a (List.mem_cons_self a t)
    rw [List.countP_cons, List.countP_cons, List.countP_cons, ht]
    cases hp : p a with
    | false =>
        cases hq : q a with
        | false => simp [hp, hq]
        | true => simp [hp, hq]; omega
    | true =>
        cases hq : q a with
        | false => simp [hp, hq]; omega
        | true => exact absurd ⟨hp, hq⟩ ha

/-- With unique movie ids, the number of join rows of a (non-empty) genre
string `g` in the stats query equals the number of reviews whose movie
has exactly that genre string: every review of such a movie is counted
once. -/
theorem flatMap_statsBranch_countP (movies : List Movie) (reviews : List Review)
    (g : String) (hg : g ≠ "") (hnd : (movies.map Movie.id).Nodup) :
    (movies.flatMap (statsBranch reviews)).countP (fun p => p.1 = g) =
      reviews.countP
        (fun r => movies.any (fun m => m.id = r.movie_id ∧ m.genre = some g)) := by
  induction movies with
  | nil => simp
  | cons m0 ms ih =>
    rw [List.map_cons, List.nodup_cons] at hnd
    rw [List.flatMap_cons, List.countP_append, ih hnd.2]
    have hdisj : ∀ r ∈ reviews,
        ¬(decide (m0.id = r.movie_id ∧ m0.genre = some g) = true ∧
          ms.any (fun m => m.id = r.movie_id ∧ m.genre = some g) = true) := by
      rintro r hrv ⟨h1, h2⟩
      have h1' := of_decide_eq_true h1
      obtain ⟨m, hm, hm'⟩ := List.any_eq_true.mp h2
      have hm'' := of_decide_eq_true hm'
      have hmem : m0.id ∈ ms.map Movie.id := by
        rw [← (hm''.1.trans h1'.1.symm)]
        exact List.mem_map_of_mem Movie.id hm
      exact hnd.1 hmem
    have hcons : reviews.countP
          (fun r => (m0 :: ms).any (fun m => m.id = r.movie_id ∧ m.genre = some g)) =
        reviews.countP (fun r => decide (m0.id = r.movie_id ∧ m0.genre = some g)) +
        reviews.countP (fun r => ms.any (fun m => m.id = r.movie_id ∧ m.genre = some g)) := by
      have heq : (fun r : Review =>
            (m0 :: ms).any (fun m => m.id = r.movie_id ∧ m.genre = some g)) =
          (fun r : Review => decide (m0.id = r.movie_id ∧ m0.genre = some g) ||
            ms.any (fun m => m.id = r.movie_id ∧ m.genre = some g)) := by
        funext r
        simp [List.any_cons]
      rw [heq]
      exact countP_or_disjoint reviews _ _ hdisj
    rw [hcons]
    congr 1
    rcases hgen : m0.genre with _ | gm
    · rw [statsBranch_eq_of_genre_none hgen]
      simp
    · rw [statsBranch_eq_of_genre_some hgen]
      by_cases hgm : gm = g
      · subst hgm
        rw [if_pos hg, List.countP_map]
        simp [List.countP_eq_length_filter, eq_comm]
      · by_cases hne : gm ≠ ""
        · rw [if_pos hne, List.countP_map]
          simp [List.countP_eq_zero, hgm]
        · rw [if_neg hne]
          simp [List.countP_eq_zero, hgm]

/-- C1 (amended): `top_genres_by_review_count` does NOT split the genre
field on commas.  Its labels are whole genre strings of stored movies
(non-NULL, non-empty, taken verbatim); each label's count is the total
number of reviews of the movies carrying exactly that genre string; the
output is sorted by count descending (SQLite leaves the order of equal
counts unspecified; the model determinises ties by genre string
ascending) and holds at most `limit` entries. -/
theorem top_genres_by_review_count_spec (db : DB) (limit : Nat)
    (hnd : (db.movies.map Movie.id).Nodup) :
    (∀ p ∈ top_genres_by_review_count db limit,
        (∃ m ∈ db.movies, m.genre = some p.1 ∧ p.1 ≠ "") ∧
        p.2 = db.reviews.countP
          (fun r => db.movies.any (fun m => m.id = r.movie_id ∧ m.genre = some p.1))) ∧
    (top_genres_by_review_count db limit).Pairwise (fun a b => b.2 ≤ a.2) ∧
    (top_genres_by_review_count db limit).length ≤ limit := by
  refine ⟨?_, ?_, ?_⟩
  · intro p hp
    simp only [top_genres_by_review_count] at hp
    have hp' := (List.take_sublist _ _).subset hp
    have hp'' := (List.perm_insertionSort genreOrd _).mem_iff.mp hp'
    obtain ⟨g, hg, rfl⟩ := List.mem_map.mp hp''
    have hgmem : g ∈ (statsRows db).map Prod.fst := List.mem_dedup.mp hg
    obtain ⟨q, hq, rfl⟩ := List.mem_map.mp hgmem
    obtain ⟨m, hm, hgenre, hne⟩ := genre_of_mem_statsRows hq
    exact ⟨⟨m, hm, hgenre, hne⟩,
      flatMap_statsBranch_countP db.movies db.reviews q.1 hne hnd⟩
  · simp only [top_genres_by_review_count]
    apply List.Pairwise.sublist (List.take_sublist _ _)
    apply List.Pairwise.imp ?_ (List.sorted_insertionSort genreOrd _)
    intro a b hab
    rcases hab with h | ⟨e, _⟩
    · exact le_of_lt h
    · exact le_of_eq e.symm
  · simp only [top_genres_by_review_count]
    exact List.length_take_le _ _

/-- C1 counterexample: on the specification's own scenario — movie
"Inception" with genre "SF, 액션" and two reviews — the stats query
returns the single unsplit label ("SF, 액션", 2); it does not contain
("SF", 2) (nor ("액션", 2)), contradicting the claim that the genre
field is split on commas. -/
theorem top_genres_no_comma_split :
    top_genres_by_review_count scenarioDB 5 = [("SF, 액션", 2)] ∧
    ("SF", 2) ∉ top_genres_by_review_count scenarioDB 5 := by
  decide

theorem top_genres_by_review_count_spec_witness :
    (∃ m ∈ scenarioDB.movies, m.genre = some "SF, 액션" ∧ "SF, 액션" ≠ "") ∧
    (2 : Nat) = scenarioDB.reviews.countP
      (fun r => scenarioDB.movies.any
        (fun m => m.id = r.movie_id ∧ m.genre = some "SF, 액션")) :=
  (top_genres_by_review_count_spec scenarioDB 5 (by decide)).1 ("SF, 액션", 2)
    (by decide)

end MovieApp
